import Mathlib

/-!
# Whitelist Dapp: the page component `Home` of `src/pages/index.js`

The page keeps four pieces of React state, a reference to a `Web3Modal`
instance, and five closures over them (`getProviderOrSigner`,
`addAddressToWhitelist`, `getNumberOfWhitelisted`, `checkIfAddressInWhitelist`,
`connectWallet`), a render selector `renderButton` and one effect.

The closures are `async` functions.  They are embedded as state-passing
functions over a `World` (the React state, the `web3ModalRef` reference and a
trace of the observable actions performed so far).  What the wallet and the
chain answer is not decided by the page: every function takes the answers of
the external calls it makes as an argument (a "reply" record), so that a
statement quantified over all replies covers every behaviour of the wallet and
of the contract.
-/

set_option linter.constructorNameAsVariable false

namespace Whitelist

/-! ## Data model -/

/-- The four `useState` cells of `Home` (index.js lines 10-19). -/
structure ViewState where
  walletConnected : Bool
  joinedWhitelist : Bool
  loading : Bool
  numberOfWhitelisted : Nat
  deriving DecidableEq, Repr

/-- Initial values passed to `useState` (lines 10, 13, 16, 19). -/
def ViewState.initial : ViewState :=
  { walletConnected := false, joinedWhitelist := false, loading := false,
    numberOfWhitelisted := 0 }

/-- Values that a `throw` or a rejected promise carries. -/
inductive JsError where
  /-- Evaluating an identifier that is bound nowhere: `ReferenceError: <ident> is not defined`. -/
  | referenceError (ident : String)
  /-- Reading a property of `undefined`. -/
  | typeError (what : String)
  /-- The value of `new Error(message)`. -/
  | error (message : String)
  /-- A rejection produced outside the page (wallet prompt declined, RPC failure, revert). -/
  | outside (reason : String)
  deriving DecidableEq, Repr

/-- Settled state of an awaited promise. -/
inductive Outcome (α : Type) where
  | resolved (value : α)
  | rejected (reason : JsError)
  deriving DecidableEq, Repr

/-- The two kinds of object `getProviderOrSigner` can return (lines 53 and 56). -/
inductive Handle where
  | web3Provider
  | signer
  deriving DecidableEq, Repr

/-- The contract functions the page calls (lines 77, 110, 139). -/
inductive ContractMethod where
  | addToWhitelist
  | numAddressesWhitelisted
  | whitelistedAddress
  deriving DecidableEq, Repr

/-- Modelled from the spec: the ABI of `../constants` is not part of the sources; section 6
of the specification lists one mutating call without arguments and two read calls.  The page
itself treats the result of `addToWhitelist` as a transaction (`tx.wait()`, line 81). -/
def ContractMethod.mutates : ContractMethod → Bool
  | .addToWhitelist => true
  | .numAddressesWhitelisted => false
  | .whitelistedAddress => false

/-- The object built by `new Contract(WHITELIST_CONTRACT_ADDRESS, abi, handle)`. -/
structure Contract where
  handle : Handle
  deriving DecidableEq, Repr

/-- The object built by `new Web3Modal({...})` (lines 204-208). -/
structure Web3Modal where
  network : String
  disableInjectedProvider : Bool
  deriving DecidableEq, Repr

/-- Observable actions, in the order the page performs them. -/
inductive Event where
  /-- Entry into `getProviderOrSigner` with the given argument. -/
  | getProviderOrSigner (needSigner : Bool)
  | newWeb3Modal
  | connect
  | getNetwork
  | alert (message : String)
  | getSigner
  | newContract (handle : Handle)
  | getAddress
  /-- A contract function is invoked through a binding made with `handle`. -/
  | call (handle : Handle) (method : ContractMethod)
  | txWait
  | setWalletConnected (value : Bool)
  | setJoinedWhitelist (value : Bool)
  | setLoading (value : Bool)
  | setNumberOfWhitelisted (value : Nat)
  | consoleLog (reason : JsError)
  | consoleLogAbi
  deriving DecidableEq, Repr

/-- Everything the closures of `Home` can read or write. -/
structure World where
  view : ViewState
  /-- `web3ModalRef.current`; `none` is `undefined` (line 22). -/
  web3ModalRef : Option Web3Modal
  log : List Event
  deriving DecidableEq, Repr

/-! ## Asynchronous computations -/

/-- An `async` function body: it transforms the world and settles. -/
def Async (α : Type) : Type := World → Outcome α × World

namespace Async

/-- Settle with a value. -/
def ret {α : Type} (a : α) : Async α := fun w => (.resolved a, w)

/-- Sequencing: a rejection skips the rest. -/
def andThen {α β : Type} (x : Async α) (f : α → Async β) : Async β := fun w =>
  match x w with
  | (.resolved a, w1) => f a w1
  | (.rejected e, w1) => (.rejected e, w1)

/-- A `throw` statement. -/
def raise {α : Type} (e : JsError) : Async α := fun w => (.rejected e, w)

/-- A `try { body } catch (error) { handler }` statement. -/
def attempt {α : Type} (body : Async α) (handler : JsError → Async α) : Async α := fun w =>
  match body w with
  | (.resolved a, w1) => (.resolved a, w1)
  | (.rejected e, w1) => handler e w1

end Async

instance : Monad Async where
  pure := Async.ret
  bind := Async.andThen

instance : MonadExcept JsError Async where
  throw := Async.raise
  tryCatch := Async.attempt

/-- Append an action to the trace. -/
def emit (e : Event) : Async Unit := fun w =>
  (.resolved (), { w with log := w.log ++ [e] })

/-- An `await` on a promise whose settlement is given. -/
def await {α : Type} (o : Outcome α) : Async α := fun w => (o, w)

/-- A call of an `async` function without `await`: the caller continues whatever the callee
does, and a rejection of the callee does not reach the caller.  The callee is run to
completion here; the callees started this way (lines 158, 159, 210) write state cells that
their caller does not write afterwards. -/
def spawn {α : Type} (x : Async α) : Async Unit := fun w => (.resolved (), (x w).2)

def setWalletConnected (b : Bool) : Async Unit := fun w =>
  (.resolved (), { w with view := { w.view with walletConnected := b },
                          log := w.log ++ [.setWalletConnected b] })

def setJoinedWhitelist (b : Bool) : Async Unit := fun w =>
  (.resolved (), { w with view := { w.view with joinedWhitelist := b },
                          log := w.log ++ [.setJoinedWhitelist b] })

def setLoading (b : Bool) : Async Unit := fun w =>
  (.resolved (), { w with view := { w.view with loading := b },
                          log := w.log ++ [.setLoading b] })

def setNumberOfWhitelisted (n : Nat) : Async Unit := fun w =>
  (.resolved (), { w with view := { w.view with numberOfWhitelisted := n },
                          log := w.log ++ [.setNumberOfWhitelisted n] })

/-- Reading `web3ModalRef.current.connect`: a `TypeError` when `current` is `undefined`. -/
def currentModal : Async Web3Modal := fun w =>
  match w.web3ModalRef with
  | some m => (.resolved m, w)
  | none => (.rejected (.typeError "web3ModalRef.current"), w)

/-- The expression `new Contract(WHITELIST_CONTRACT_ADDRESS, abi, handle)`. -/
def newContract (handle : Handle) : Async Contract := fun w =>
  (.resolved { handle := handle }, { w with log := w.log ++ [.newContract handle] })

/-- Invoking a contract function through a binding; `o` is what the call settles to. -/
def Contract.invoke {α : Type} (c : Contract) (m : ContractMethod) (o : Outcome α) : Async α :=
  fun w => (o, { w with log := w.log ++ [.call c.handle m] })

/-! ## Replies of the wallet and of the chain -/

/-- Answers to the external calls of one run of `getProviderOrSigner`. -/
structure WalletReply where
  /-- Settlement of `web3ModalRef.current.connect()` (line 40). -/
  connect : Outcome Unit
  /-- Settlement of `web3Provider.getNetwork()`, carrying `chainId` (line 44). -/
  network : Outcome Nat
  deriving DecidableEq, Repr

/-- Answers for one run of `getNumberOfWhitelisted`. -/
structure CountReply where
  wallet : WalletReply
  /-- Settlement of `whitelistContract.numAddressesWhitelisted()` (line 110). -/
  count : Outcome Nat
  deriving DecidableEq, Repr

/-- Answers for one run of `checkIfAddressInWhitelist`. -/
structure MemberReply where
  wallet : WalletReply
  /-- Settlement of `whitelistContract.whitelistedAddress(address)` (line 139). -/
  member : Outcome Bool
  deriving DecidableEq, Repr

/-- Answers for one run of `addAddressToWhitelist`. -/
structure JoinReply where
  wallet : WalletReply
  /-- Settlement of `whitelistContract.addToWhitelist()` (line 77). -/
  send : Outcome Unit
  /-- Settlement of `tx.wait()` (line 81). -/
  wait : Outcome Unit
  /-- Answers for the nested `getNumberOfWhitelisted()` (line 85). -/
  refresh : CountReply
  deriving DecidableEq, Repr

/-- Answers for one run of `connectWallet`. -/
structure ConnectReply where
  wallet : WalletReply
  membership : MemberReply
  count : CountReply
  deriving DecidableEq, Repr

/-! ## The closures of `Home` -/

/-- Lines 38-57.  `needSigner` defaults to `false` in the source; callers here pass it.
Line 48 evaluates `new error("Wrong network!")`; no binding of `error` is in scope there
(the `catch (error)` parameters belong to other functions), so the evaluation of the
identifier throws a `ReferenceError` before any object is constructed. -/
def getProviderOrSigner (needSigner : Bool) (r : WalletReply) : Async Handle := do
  emit (.getProviderOrSigner needSigner)
  let _modal ← currentModal
  emit .connect
  let _provider ← await r.connect
  emit .getNetwork
  let chainId ← await r.network
  if chainId ≠ 4 then
    emit (.alert "Please change to Rinkeby Network")
    throw (JsError.referenceError "error")
  if needSigner then
    emit .getSigner
    return Handle.signer
  return Handle.web3Provider

/-- Lines 98-117. -/
def getNumberOfWhitelisted (r : CountReply) : Async Unit :=
  try
    let provider ← getProviderOrSigner false r.wallet
    let whitelistContract ← newContract provider
    let _numberOfWhitelistedAddresses ←
      whitelistContract.invoke .numAddressesWhitelisted r.count
    setNumberOfWhitelisted _numberOfWhitelistedAddresses
  catch error =>
    emit (.consoleLog error)

/-- Lines 63-92. -/
def addAddressToWhitelist (r : JoinReply) : Async Unit :=
  try
    let signer ← getProviderOrSigner true r.wallet
    let whitelistContract ← newContract signer
    let _tx ← whitelistContract.invoke .addToWhitelist r.send
    setLoading true
    emit .txWait
    await r.wait
    setLoading false
    getNumberOfWhitelisted r.refresh
    setJoinedWhitelist true
  catch error => do
    emit (.consoleLog error)
    emit .consoleLogAbi

/-- Lines 123-144.  `signer.getAddress()` is not awaited (line 136); the promise is passed
to the contract call, whose settlement `r.member` stands for both. -/
def checkIfAddressInWhitelist (r : MemberReply) : Async Unit :=
  try
    let signer ← getProviderOrSigner true r.wallet
    let whitelistContract ← newContract signer
    emit .getAddress
    let _joinedWhitelist ← whitelistContract.invoke .whitelistedAddress r.member
    setJoinedWhitelist _joinedWhitelist
  catch error =>
    emit (.consoleLog error)

/-- Lines 150-163.  The two calls of lines 158-159 are not awaited. -/
def connectWallet (r : ConnectReply) : Async Unit :=
  try
    let _ ← getProviderOrSigner false r.wallet
    setWalletConnected true
    spawn (checkIfAddressInWhitelist r.membership)
    spawn (getNumberOfWhitelisted r.count)
  catch error =>
    emit (.consoleLog error)

/-- The handlers a rendered button can carry. -/
inductive Handler where
  | addAddressToWhitelist
  | connectWallet
  deriving DecidableEq, Repr

/-- What `renderButton` returns: a `div` with a text, or a `button` with an optional
`onClick` and a label. -/
inductive Rendered where
  | description (text : String)
  | button (onClick : Option Handler) (label : String)
  deriving DecidableEq, Repr

/-- Lines 169-193. -/
def renderButton (s : ViewState) : Rendered :=
  if s.walletConnected then
    if s.joinedWhitelist then
      .description "Thanks for joining the Whitelist!"
    else if s.loading then
      .button none "Loading..."
    else
      .button (some .addAddressToWhitelist) "Join the Whitelist"
  else
    .button (some .connectWallet) "Connect your Wallet!"

/-- The `onClick` handler of a rendered element, if it has one. -/
def Rendered.onClick : Rendered → Option Handler
  | .description _ => none
  | .button h _ => h

/-- Lines 198-212: the body of the effect that runs when `walletConnected` changes.
The call of `connectWallet` (line 210) is not awaited. -/
def connectionEffect (r : ConnectReply) : Async Unit := fun w =>
  if !w.view.walletConnected then
    let w1 : World :=
      { w with web3ModalRef := some { network := "rinkeby", disableInjectedProvider := false },
               log := w.log ++ [.newWeb3Modal] }
    spawn (connectWallet r) w1
  else
    (.resolved (), w)

/-- The four elements `renderButton` can return (lines 172-191). -/
def thanksMessage : Rendered := .description "Thanks for joining the Whitelist!"

def loadingButton : Rendered := .button none "Loading..."

def joinButton : Rendered := .button (some .addAddressToWhitelist) "Join the Whitelist"

def connectButton : Rendered := .button (some .connectWallet) "Connect your Wallet!"

/-! ## Traces and replay -/

/-- The actions a computation adds to the trace when started in `w`. -/
def trace {α : Type} (x : Async α) (w : World) : List Event :=
  (x w).2.log.drop w.log.length

/-- Effect of one action on the React state: only the four setters write it. -/
def Event.apply (s : ViewState) : Event → ViewState
  | .setWalletConnected b => { s with walletConnected := b }
  | .setJoinedWhitelist b => { s with joinedWhitelist := b }
  | .setLoading b => { s with loading := b }
  | .setNumberOfWhitelisted n => { s with numberOfWhitelisted := n }
  | _ => s

/-- The successive React states while a trace is performed, the starting state first. -/
def replay (s : ViewState) : List Event → List ViewState
  | [] => [s]
  | e :: es => s :: replay (e.apply s) es

/-- The `needSigner` arguments of the calls of `getProviderOrSigner` in a trace. -/
def requested : List Event → List Bool
  | [] => []
  | .getProviderOrSigner b :: es => b :: requested es
  | _ :: es => requested es

/-- The contract calls of a trace, each with the handle its binding was made with. -/
def calls : List Event → List (Handle × ContractMethod)
  | [] => []
  | .call h m :: es => (h, m) :: calls es
  | _ :: es => calls es

/-- The state writes of a trace. -/
def writes : List Event → List Event
  | [] => []
  | .setWalletConnected b :: es => .setWalletConnected b :: writes es
  | .setJoinedWhitelist b :: es => .setJoinedWhitelist b :: writes es
  | .setLoading b :: es => .setLoading b :: writes es
  | .setNumberOfWhitelisted n :: es => .setNumberOfWhitelisted n :: writes es
  | _ :: es => writes es

/-! ## The operations of the page as one type -/

/-- An operation of the page together with the replies it will receive. -/
inductive Op where
  | connectWallet (r : ConnectReply)
  | checkIfAddressInWhitelist (r : MemberReply)
  | getNumberOfWhitelisted (r : CountReply)
  | addAddressToWhitelist (r : JoinReply)
  | connectionEffect (r : ConnectReply)
  deriving DecidableEq, Repr

/-- Run an operation to completion. -/
def Op.run : Op → World → World
  | .connectWallet r, w => (Whitelist.connectWallet r w).2
  | .checkIfAddressInWhitelist r, w => (Whitelist.checkIfAddressInWhitelist r w).2
  | .getNumberOfWhitelisted r, w => (Whitelist.getNumberOfWhitelisted r w).2
  | .addAddressToWhitelist r, w => (Whitelist.addAddressToWhitelist r w).2
  | .connectionEffect r, w => (Whitelist.connectionEffect r w).2

/-- A wallet on the expected network whose connection succeeds. -/
def WalletReply.rinkeby : WalletReply := { connect := .resolved (), network := .resolved 4 }

/-- The instance the effect stores in `web3ModalRef.current` (lines 204-208). -/
def rinkebyModal : Web3Modal := { network := "rinkeby", disableInjectedProvider := false }

/-- The state writes of a trace together with the waits for transaction inclusion. -/
def writesAndWaits : List Event → List Event
  | [] => []
  | .txWait :: es => .txWait :: writesAndWaits es
  | .setWalletConnected b :: es => .setWalletConnected b :: writesAndWaits es
  | .setJoinedWhitelist b :: es => .setJoinedWhitelist b :: writesAndWaits es
  | .setLoading b :: es => .setLoading b :: writesAndWaits es
  | .setNumberOfWhitelisted n :: es => .setNumberOfWhitelisted n :: writesAndWaits es
  | _ :: es => writesAndWaits es

/-- The world right after the effect has stored a fresh `Web3Modal`, nothing else done. -/
def World.fresh : World := { view := ViewState.initial, web3ModalRef := some rinkebyModal, log := [] }

/-- A wallet that connects and reports chain id 1. -/
def WalletReply.mainnet : WalletReply := { connect := .resolved (), network := .resolved 1 }

/-! ## Interleaving with other pending closures -/

/-- Steps of other pending closures that land while a function is suspended at an `await`:
the awaited computation runs, then the steps `others` are performed (the state setters among
them take effect, every step is appended to the trace), and only then does the function resume
with the settlement of the awaited computation. -/
def whileSuspended {α : Type} (others : List Event) (x : Async α) : Async α := fun w =>
  match x w with
  | (o, w1) => (o, { w1 with view := others.foldl Event.apply w1.view, log := w1.log ++ others })

/-- What other pending closures do while `addAddressToWhitelist` is suspended at each `await`
of its body (lines 67, 77, 81 and 85). -/
structure Interference where
  atHandle : List Event
  atSend : List Event
  atWait : List Event
  atRefresh : List Event
  deriving DecidableEq, Repr

/-- No other closure is pending. -/
def Interference.none : Interference :=
  { atHandle := [], atSend := [], atWait := [], atRefresh := [] }

/-- Lines 63-92, run while other closures are pending: the same body as
`addAddressToWhitelist`, each `await` letting the steps of the other closures land. -/
def addAddressToWhitelistAmid (o : Interference) (r : JoinReply) : Async Unit :=
  try
    let signer ← whileSuspended o.atHandle (getProviderOrSigner true r.wallet)
    let whitelistContract ← newContract signer
    let _tx ← whileSuspended o.atSend (whitelistContract.invoke .addToWhitelist r.send)
    setLoading true
    emit .txWait
    whileSuspended o.atWait (await r.wait)
    setLoading false
    whileSuspended o.atRefresh (getNumberOfWhitelisted r.refresh)
    setJoinedWhitelist true
  catch error => do
    emit (.consoleLog error)
    emit .consoleLogAbi

/-- Whether an action writes `joinedWhitelist` or `loading`. -/
def Event.writesFlag : Event → Bool
  | .setJoinedWhitelist _ => true
  | .setLoading _ => true
  | _ => false

/-! ## Unfolding lemmas -/

section run
variable {α β : Type}

@[simp] theorem Async.bind_run (x : Async α) (f : α → Async β) (w : World) :
    (x >>= f) w = Async.andThen x f w := rfl

@[simp] theorem Async.pure_run (a : α) (w : World) :
    (pure a : Async α) w = (.resolved a, w) := rfl

@[simp] theorem Async.throw_run (e : JsError) (w : World) :
    (throw e : Async α) w = (.rejected e, w) := rfl

@[simp] theorem Async.tryCatch_run (x : Async α) (h : JsError → Async α) (w : World) :
    (tryCatch x h) w = Async.attempt x h w := rfl

end run

/-- Closed form of `getProviderOrSigner`, one line per exit. -/
theorem getProviderOrSigner_eq (b : Bool) (r : WalletReply) (v : ViewState)
    (ref : Option Web3Modal) (log : List Event) :
    getProviderOrSigner b r ⟨v, ref, log⟩ =
      match ref, r.connect, r.network with
      | none, _, _ =>
          (.rejected (.typeError "web3ModalRef.current"),
            ⟨v, none, log ++ [.getProviderOrSigner b]⟩)
      | some m, .rejected e, _ =>
          (.rejected e, ⟨v, some m, log ++ [.getProviderOrSigner b, .connect]⟩)
      | some m, .resolved _, .rejected e =>
          (.rejected e, ⟨v, some m, log ++ [.getProviderOrSigner b, .connect, .getNetwork]⟩)
      | some m, .resolved _, .resolved n =>
          if n = 4 then
            (.resolved (if b then Handle.signer else Handle.web3Provider),
              ⟨v, some m, log ++ ([.getProviderOrSigner b, .connect, .getNetwork] ++
                if b then [Event.getSigner] else [])⟩)
          else
            (.rejected (.referenceError "error"),
              ⟨v, some m, log ++ [.getProviderOrSigner b, .connect, .getNetwork,
                .alert "Please change to Rinkeby Network"]⟩) := by
  rcases r with ⟨c, n⟩
  cases ref <;> cases c <;> cases n <;> cases b <;>
    simp [getProviderOrSigner, Async.andThen, emit, currentModal, await]
  all_goals split <;> simp_all [Async.andThen, emit]

/-- What `getNumberOfWhitelisted` does, for every world and every reply. -/
theorem getNumberOfWhitelisted_spec (r : CountReply) (w : World) :
    (getNumberOfWhitelisted r w).1 = .resolved () ∧
    (getNumberOfWhitelisted r w).2.web3ModalRef = w.web3ModalRef ∧
    (getNumberOfWhitelisted r w).2.log = w.log ++ trace (getNumberOfWhitelisted r) w ∧
    requested (trace (getNumberOfWhitelisted r) w) = [false] ∧
    (∀ c ∈ calls (trace (getNumberOfWhitelisted r) w),
      c = (Handle.web3Provider, ContractMethod.numAddressesWhitelisted)) ∧
    ((writes (trace (getNumberOfWhitelisted r) w) = [] ∧
        (getNumberOfWhitelisted r w).2.view = w.view) ∨
      (∃ n, w.web3ModalRef ≠ none ∧ r.wallet.connect = .resolved () ∧
        r.wallet.network = .resolved 4 ∧ r.count = .resolved n ∧
        writes (trace (getNumberOfWhitelisted r) w) = [.setNumberOfWhitelisted n] ∧
        (getNumberOfWhitelisted r w).2.view = { w.view with numberOfWhitelisted := n })) ∧
    (∀ n, w.web3ModalRef ≠ none → r.wallet.connect = .resolved () →
      r.wallet.network = .resolved 4 → r.count = .resolved n →
      (getNumberOfWhitelisted r w).2.view = { w.view with numberOfWhitelisted := n }) := by
  rcases w with ⟨v, ref, log⟩
  rcases r with ⟨⟨c, (n | e)⟩, cnt⟩
  · by_cases h : n = 4
    · subst h
      cases ref <;> cases c <;> cases cnt <;>
        simp [trace, getNumberOfWhitelisted, getProviderOrSigner_eq, Async.andThen, Async.attempt,
          emit, newContract, Contract.invoke, setNumberOfWhitelisted, requested, calls, writes]
    · cases ref <;> cases c <;> cases cnt <;>
        simp [h, trace, getNumberOfWhitelisted, getProviderOrSigner_eq, Async.andThen,
          Async.attempt, emit, newContract, Contract.invoke, setNumberOfWhitelisted, requested,
          calls, writes]
  · cases ref <;> cases c <;> cases cnt <;>
      simp [trace, getNumberOfWhitelisted, getProviderOrSigner_eq, Async.andThen, Async.attempt,
        emit, newContract, Contract.invoke, setNumberOfWhitelisted, requested, calls, writes]

/-- What `checkIfAddressInWhitelist` does, for every world and every reply. -/
theorem checkIfAddressInWhitelist_spec (r : MemberReply) (w : World) :
    (checkIfAddressInWhitelist r w).1 = .resolved () ∧
    (checkIfAddressInWhitelist r w).2.web3ModalRef = w.web3ModalRef ∧
    (checkIfAddressInWhitelist r w).2.log = w.log ++ trace (checkIfAddressInWhitelist r) w ∧
    requested (trace (checkIfAddressInWhitelist r) w) = [true] ∧
    (∀ c ∈ calls (trace (checkIfAddressInWhitelist r) w),
      c = (Handle.signer, ContractMethod.whitelistedAddress)) ∧
    ((writes (trace (checkIfAddressInWhitelist r) w) = [] ∧
        (checkIfAddressInWhitelist r w).2.view = w.view) ∨
      (∃ b, w.web3ModalRef ≠ none ∧ r.wallet.connect = .resolved () ∧
        r.wallet.network = .resolved 4 ∧ r.member = .resolved b ∧
        writes (trace (checkIfAddressInWhitelist r) w) = [.setJoinedWhitelist b] ∧
        (checkIfAddressInWhitelist r w).2.view = { w.view with joinedWhitelist := b })) ∧
    (∀ b, w.web3ModalRef ≠ none → r.wallet.connect = .resolved () →
      r.wallet.network = .resolved 4 → r.member = .resolved b →
      (checkIfAddressInWhitelist r w).2.view = { w.view with joinedWhitelist := b }) := by
  rcases w with ⟨v, ref, log⟩
  rcases r with ⟨⟨c, (n | e)⟩, mem⟩
  · by_cases h : n = 4
    · subst h
      cases ref <;> cases c <;> cases mem <;>
        simp [trace, checkIfAddressInWhitelist, getProviderOrSigner_eq, Async.andThen,
          Async.attempt, emit, newContract, Contract.invoke, setJoinedWhitelist, requested,
          calls, writes]
    · cases ref <;> cases c <;> cases mem <;>
        simp [h, trace, checkIfAddressInWhitelist, getProviderOrSigner_eq, Async.andThen,
          Async.attempt, emit, newContract, Contract.invoke, setJoinedWhitelist, requested,
          calls, writes]
  · cases ref <;> cases c <;> cases mem <;>
      simp [trace, checkIfAddressInWhitelist, getProviderOrSigner_eq, Async.andThen,
        Async.attempt, emit, newContract, Contract.invoke, setJoinedWhitelist, requested,
        calls, writes]

/-! ## Render selection -/

/-- C1: `renderButton` returns, for every view state, the one output that belongs to the
state: the connect button exactly when the wallet is not connected, the join button exactly
when connected, not joined and not loading, the loading button exactly when connected, not
joined and loading, the thank-you text exactly when connected and joined.  The four outputs
are pairwise different, so no state yields two of them, and the result does not depend on
`numberOfWhitelisted`. -/
theorem renderButton_selects_one (s : ViewState) :
    (renderButton s = connectButton ↔ s.walletConnected = false) ∧
    (renderButton s = joinButton ↔
      s.walletConnected = true ∧ s.joinedWhitelist = false ∧ s.loading = false) ∧
    (renderButton s = loadingButton ↔
      s.walletConnected = true ∧ s.joinedWhitelist = false ∧ s.loading = true) ∧
    (renderButton s = thanksMessage ↔ s.walletConnected = true ∧ s.joinedWhitelist = true) ∧
    (renderButton s = connectButton ∨ renderButton s = joinButton ∨
      renderButton s = loadingButton ∨ renderButton s = thanksMessage) ∧
    (connectButton ≠ joinButton ∧ connectButton ≠ loadingButton ∧
      connectButton ≠ thanksMessage ∧ joinButton ≠ loadingButton ∧
      joinButton ≠ thanksMessage ∧ loadingButton ≠ thanksMessage) ∧
    (∀ n : Nat, renderButton { s with numberOfWhitelisted := n } = renderButton s) := by
  rcases s with ⟨c, j, l, k⟩
  cases c <;> cases j <;> cases l <;>
    simp [renderButton, connectButton, joinButton, loadingButton, thanksMessage]

/-! ## Wrong network -/

/-- C2: on a wallet that reports chain id 1, `getProviderOrSigner` raises the alert and then
fails, for either value of `needSigner`, but the value thrown is the `ReferenceError` of the
unbound identifier `error` of line 48, not an error carrying "Wrong network!".  No handle is
returned; `connectWallet` on that wallet builds no contract binding, issues no contract call
and leaves the view state at its initial, disconnected value. -/
theorem getProviderOrSigner_chain1_throws_referenceError :
    (∀ needSigner : Bool,
      getProviderOrSigner needSigner WalletReply.mainnet World.fresh =
        (.rejected (.referenceError "error"),
          { World.fresh with
            log := [.getProviderOrSigner needSigner, .connect, .getNetwork,
              .alert "Please change to Rinkeby Network"] }) ∧
      (getProviderOrSigner needSigner WalletReply.mainnet World.fresh).1 ≠
        .rejected (.error "Wrong network!")) ∧
    (∀ membership count,
      (connectWallet ⟨WalletReply.mainnet, membership, count⟩ World.fresh).2.view =
        ViewState.initial ∧
      calls (trace (connectWallet ⟨WalletReply.mainnet, membership, count⟩) World.fresh) = [] ∧
      (∀ h, Event.newContract h ∉
        trace (connectWallet ⟨WalletReply.mainnet, membership, count⟩) World.fresh)) := by
  refine ⟨fun b => ?_, fun membership count => ?_⟩
  · cases b <;> simp [World.fresh, WalletReply.mainnet, getProviderOrSigner_eq]
  · simp [World.fresh, WalletReply.mainnet, connectWallet, getProviderOrSigner_eq, trace,
      Async.andThen, Async.attempt, emit, calls]

/-! ## Frame of the count read -/

/-- C5: for every world and every reply, `getNumberOfWhitelisted` resolves, leaves
`walletConnected`, `joinedWhitelist` and `loading` as they were, and writes at most
`numberOfWhitelisted` (once, with the count read); when the reference is unset, the connection
or the network query is rejected, the network is not 4, or the count read is rejected, it
performs no state write at all. -/
theorem getNumberOfWhitelisted_writes_only_count (w : World) (r : CountReply) :
    (getNumberOfWhitelisted r w).1 = .resolved () ∧
    (getNumberOfWhitelisted r w).2.view.walletConnected = w.view.walletConnected ∧
    (getNumberOfWhitelisted r w).2.view.joinedWhitelist = w.view.joinedWhitelist ∧
    (getNumberOfWhitelisted r w).2.view.loading = w.view.loading ∧
    ((writes (trace (getNumberOfWhitelisted r) w) = [] ∧
        (getNumberOfWhitelisted r w).2.view = w.view) ∨
      (∃ n, r.count = .resolved n ∧
        writes (trace (getNumberOfWhitelisted r) w) = [.setNumberOfWhitelisted n] ∧
        (getNumberOfWhitelisted r w).2.view = { w.view with numberOfWhitelisted := n })) ∧
    ((w.web3ModalRef = none ∨ (∃ e, r.wallet.connect = .rejected e) ∨
        (∃ e, r.wallet.network = .rejected e) ∨
        (∃ c, r.wallet.network = .resolved c ∧ c ≠ 4) ∨ (∃ e, r.count = .rejected e)) →
      writes (trace (getNumberOfWhitelisted r) w) = [] ∧
        (getNumberOfWhitelisted r w).2.view = w.view) := by
  obtain ⟨h1, _, _, _, _, h6, _⟩ := getNumberOfWhitelisted_spec r w
  refine ⟨h1, ?_, ?_, ?_, ?_, ?_⟩
  · rcases h6 with h | ⟨n, _, _, _, _, _, h⟩ <;> simp [h]
  · rcases h6 with h | ⟨n, _, _, _, _, _, h⟩ <;> simp [h]
  · rcases h6 with h | ⟨n, _, _, _, _, _, h⟩ <;> simp [h]
  · rcases h6 with h | ⟨n, _, _, _, hn, hw, h⟩
    · exact Or.inl h
    · exact Or.inr ⟨n, hn, hw, h⟩
  · intro hfail
    rcases h6 with h | ⟨n, hr, hc, hnet, hn, _, _⟩
    · exact h
    · exfalso
      rcases hfail with h | ⟨e, h⟩ | ⟨e, h⟩ | ⟨c, h, hc4⟩ | ⟨e, h⟩
      · exact hr h
      · simp [hc] at h
      · simp [hnet] at h
      · simp [hnet] at h; exact hc4 h.symm
      · simp [hn] at h

/-- Instance of C5: a count read on a wallet connected to chain id 1 writes nothing. -/
theorem getNumberOfWhitelisted_writes_only_count_witness :
    (getNumberOfWhitelisted ⟨WalletReply.mainnet, .resolved 9⟩
      ⟨⟨true, false, false, 3⟩, some rinkebyModal, []⟩).2.view = ⟨true, false, false, 3⟩ :=
  ((getNumberOfWhitelisted_writes_only_count ⟨⟨true, false, false, 3⟩, some rinkebyModal, []⟩
    ⟨WalletReply.mainnet, .resolved 9⟩).2.2.2.2.2
    (Or.inr (Or.inr (Or.inr (Or.inl ⟨1, rfl, by decide⟩))))).2

/-! ## Rejected prompt -/

/-- C6: from a connected, not joined state, when the wallet rejects the connection prompt or
the transaction prompt of `addToWhitelist`, `addAddressToWhitelist` resolves (the rejection
does not reach the caller) and performs no state write: the view state is unchanged, in
particular `walletConnected = true`, `joinedWhitelist = false` and `numberOfWhitelisted` keeps
its value. -/
theorem addAddressToWhitelist_rejection_is_swallowed (w : World) (r : JoinReply) (e : JsError)
    (hc : w.view.walletConnected = true) (hj : w.view.joinedWhitelist = false)
    (hrej : r.wallet.connect = .rejected e ∨ r.send = .rejected e) :
    (addAddressToWhitelist r w).1 = .resolved () ∧
    (addAddressToWhitelist r w).2.view = w.view ∧
    (addAddressToWhitelist r w).2.view.walletConnected = true ∧
    (addAddressToWhitelist r w).2.view.joinedWhitelist = false ∧
    (addAddressToWhitelist r w).2.view.numberOfWhitelisted = w.view.numberOfWhitelisted ∧
    writes (trace (addAddressToWhitelist r) w) = [] := by
  rcases w with ⟨v, ref, log⟩
  rcases r with ⟨⟨c, (n | en)⟩, send, wait, refresh⟩
  · by_cases h : n = 4
    · subst h
      cases ref <;> cases c <;> cases send <;>
        simp_all [trace, addAddressToWhitelist, getProviderOrSigner_eq, Async.andThen,
          Async.attempt, emit, newContract, Contract.invoke, writes]
    · cases ref <;> cases c <;> cases send <;>
        simp_all [trace, addAddressToWhitelist, getProviderOrSigner_eq, Async.andThen,
          Async.attempt, emit, newContract, Contract.invoke, writes]
  · cases ref <;> cases c <;> cases send <;>
      simp_all [trace, addAddressToWhitelist, getProviderOrSigner_eq, Async.andThen,
        Async.attempt, emit, newContract, Contract.invoke, writes]

/-- Instance of C6: the user declines the transaction prompt with 3 addresses displayed. -/
theorem addAddressToWhitelist_rejection_is_swallowed_witness :
    (addAddressToWhitelist
        ⟨WalletReply.rinkeby, .rejected (.outside "user rejected transaction"), .resolved (),
          ⟨WalletReply.rinkeby, .resolved 3⟩⟩
        ⟨⟨true, false, false, 3⟩, some rinkebyModal, []⟩).1 = .resolved () ∧
    (addAddressToWhitelist
        ⟨WalletReply.rinkeby, .rejected (.outside "user rejected transaction"), .resolved (),
          ⟨WalletReply.rinkeby, .resolved 3⟩⟩
        ⟨⟨true, false, false, 3⟩, some rinkebyModal, []⟩).2.view =
      ⟨true, false, false, 3⟩ :=
  have h := addAddressToWhitelist_rejection_is_swallowed
    ⟨⟨true, false, false, 3⟩, some rinkebyModal, []⟩
    ⟨WalletReply.rinkeby, .rejected (.outside "user rejected transaction"), .resolved (),
      ⟨WalletReply.rinkeby, .resolved 3⟩⟩
    (.outside "user rejected transaction") rfl rfl (Or.inr rfl)
  ⟨h.1, h.2.1⟩

/-! ## The connection effect -/

/-- C7: when `walletConnected` is already true the effect does nothing: its trace is empty (no
`Web3Modal` is created, `connectWallet` and `getProviderOrSigner` are not entered), and the
reference and the four state cells are unchanged.  The rendered element carries the
`connectWallet` handler exactly when `walletConnected` is false. -/
theorem connectionEffect_noop_when_connected (w : World) (r : ConnectReply)
    (hc : w.view.walletConnected = true) :
    connectionEffect r w = (.resolved (), w) ∧
    trace (connectionEffect r) w = [] ∧
    (connectionEffect r w).2.web3ModalRef = w.web3ModalRef ∧
    (connectionEffect r w).2.view = w.view ∧
    (∀ s : ViewState,
      (renderButton s).onClick = some Handler.connectWallet ↔ s.walletConnected = false) := by
  have h : connectionEffect r w = (.resolved (), w) := by simp [connectionEffect, hc]
  refine ⟨h, ?_, ?_, ?_, ?_⟩
  · simp [trace, h]
  · simp [h]
  · simp [h]
  · intro s
    rcases s with ⟨c, j, l, k⟩
    cases c <;> cases j <;> cases l <;> simp [renderButton, Rendered.onClick]

/-- Instance of C7: the effect run on a connected page showing 17. -/
theorem connectionEffect_noop_when_connected_witness :
    connectionEffect ⟨WalletReply.rinkeby, ⟨WalletReply.rinkeby, .resolved true⟩,
        ⟨WalletReply.rinkeby, .resolved 17⟩⟩
      ⟨⟨true, false, false, 17⟩, some rinkebyModal, []⟩ =
      (.resolved (), ⟨⟨true, false, false, 17⟩, some rinkebyModal, []⟩) :=
  (connectionEffect_noop_when_connected ⟨⟨true, false, false, 17⟩, some rinkebyModal, []⟩
    ⟨WalletReply.rinkeby, ⟨WalletReply.rinkeby, .resolved true⟩,
      ⟨WalletReply.rinkeby, .resolved 17⟩⟩ rfl).1

/-- `getNumberOfWhitelisted` always resolves. -/
theorem getNumberOfWhitelisted_eta (r : CountReply) (w : World) :
    getNumberOfWhitelisted r w = (.resolved (), (getNumberOfWhitelisted r w).2) := by
  have h := (getNumberOfWhitelisted_spec r w).1
  generalize getNumberOfWhitelisted r w = out at h
  rcases out with ⟨o, w1⟩
  simp only at h
  subst h
  rfl

/-- Closed form of `addAddressToWhitelist` once the transaction was accepted and mined. -/
theorem addAddressToWhitelist_mined (v : ViewState) (m : Web3Modal) (log : List Event)
    (send wait : Unit) (c : Unit) (refresh : CountReply) :
    addAddressToWhitelist ⟨⟨.resolved c, .resolved 4⟩, .resolved send, .resolved wait, refresh⟩
        ⟨v, some m, log⟩ =
      setJoinedWhitelist true
        (getNumberOfWhitelisted refresh
          ⟨{ v with loading := false }, some m,
            log ++ [.getProviderOrSigner true, .connect, .getNetwork, .getSigner,
              .newContract .signer, .call .signer .addToWhitelist, .setLoading true, .txWait,
              .setLoading false]⟩).2 := by
  simp only [addAddressToWhitelist, getProviderOrSigner_eq, Async.andThen, Async.attempt, emit,
    newContract, Contract.invoke, setLoading, await, Async.bind_run, Async.tryCatch_run,
    Async.pure_run, if_true, List.append_assoc, List.singleton_append, List.cons_append,
    List.nil_append]
  rw [getNumberOfWhitelisted_eta]
  rfl

/-! ## Successful registration -/

/-- C3 (amended): from a connected, not joined, not loading state, when the transaction is
accepted and mined, `addAddressToWhitelist` resolves with `walletConnected = true`,
`joinedWhitelist = true` and `loading = false`; `numberOfWhitelisted` is the count returned by
the refresh read when that read succeeds, and keeps its pre-call value when the refresh
fails. -/
theorem addAddressToWhitelist_success_state (w : World) (r : JoinReply) (m : Web3Modal)
    (href : w.web3ModalRef = some m)
    (hc : w.view.walletConnected = true) (hj : w.view.joinedWhitelist = false)
    (hl : w.view.loading = false)
    (hconn : r.wallet.connect = .resolved ()) (hnet : r.wallet.network = .resolved 4)
    (hsend : r.send = .resolved ()) (hwait : r.wait = .resolved ()) :
    (addAddressToWhitelist r w).1 = .resolved () ∧
    (addAddressToWhitelist r w).2.view.walletConnected = true ∧
    (addAddressToWhitelist r w).2.view.joinedWhitelist = true ∧
    (addAddressToWhitelist r w).2.view.loading = false ∧
    (∀ n, r.refresh.wallet.connect = .resolved () → r.refresh.wallet.network = .resolved 4 →
      r.refresh.count = .resolved n →
      (addAddressToWhitelist r w).2.view.numberOfWhitelisted = n) ∧
    (((∃ e, r.refresh.wallet.connect = .rejected e) ∨
        (∃ e, r.refresh.wallet.network = .rejected e) ∨
        (∃ c, r.refresh.wallet.network = .resolved c ∧ c ≠ 4) ∨
        (∃ e, r.refresh.count = .rejected e)) →
      (addAddressToWhitelist r w).2.view.numberOfWhitelisted = w.view.numberOfWhitelisted) := by
  rcases w with ⟨v, ref, log⟩
  rcases r with ⟨⟨c, net⟩, send, wait, refresh⟩
  simp only at href hc hj hl hconn hnet hsend hwait
  subst href hconn hnet hsend hwait
  rw [addAddressToWhitelist_mined]
  generalize hW : (⟨{ v with loading := false }, some m,
            log ++ [.getProviderOrSigner true, .connect, .getNetwork, .getSigner,
              .newContract .signer, .call .signer .addToWhitelist, .setLoading true, .txWait,
              .setLoading false]⟩ : World) = W
  have hWv : W.view = { v with loading := false } := by rw [← hW]
  have hWr : W.web3ModalRef ≠ none := by rw [← hW]; simp
  obtain ⟨-, -, -, -, -, h6, h7⟩ := getNumberOfWhitelisted_spec refresh W
  refine ⟨rfl, ?_, ?_, ?_, ?_, ?_⟩
  · rcases h6 with ⟨-, h⟩ | ⟨n, -, -, -, -, -, h⟩ <;> simp [setJoinedWhitelist, h, hWv, hc]
  · simp [setJoinedWhitelist]
  · rcases h6 with ⟨-, h⟩ | ⟨n, -, -, -, -, -, h⟩ <;> simp [setJoinedWhitelist, h, hWv]
  · intro n h1 h2 h3
    simp [setJoinedWhitelist, h7 n hWr h1 h2 h3]
  · intro hfail
    rcases h6 with ⟨-, h⟩ | ⟨n, -, hrc, hrn, hcnt, -, -⟩
    · simp [setJoinedWhitelist, h, hWv]
    · exfalso
      rcases hfail with ⟨e, h⟩ | ⟨e, h⟩ | ⟨c, h, hc4⟩ | ⟨e, h⟩
      · simp [hrc] at h
      · simp [hrn] at h
      · simp [hrn] at h; exact hc4 h.symm
      · simp [hcnt] at h

/-- C3 (as stated) fails: with 3 displayed and the refresh read returning 5, the transaction
accepted and mined, the final state is not the pre-call count plus one. -/
theorem addAddressToWhitelist_count_is_not_incremented :
    ¬ ∀ (w : World) (r : JoinReply) (m : Web3Modal), w.web3ModalRef = some m →
      w.view.walletConnected = true → w.view.joinedWhitelist = false →
      w.view.loading = false → r.wallet.connect = .resolved () →
      r.wallet.network = .resolved 4 → r.send = .resolved () → r.wait = .resolved () →
      (addAddressToWhitelist r w).2.view =
        ⟨true, true, false, w.view.numberOfWhitelisted + 1⟩ := by
  intro h
  have h1 := h ⟨⟨true, false, false, 3⟩, some rinkebyModal, []⟩
    ⟨WalletReply.rinkeby, .resolved (), .resolved (), ⟨WalletReply.rinkeby, .resolved 5⟩⟩
    rinkebyModal rfl rfl rfl rfl rfl rfl rfl rfl
  revert h1
  decide

/-- Instance of C3 (amended): 3 displayed, the refresh read returns 5. -/
theorem addAddressToWhitelist_success_state_witness :
    (addAddressToWhitelist
        ⟨WalletReply.rinkeby, .resolved (), .resolved (), ⟨WalletReply.rinkeby, .resolved 5⟩⟩
        ⟨⟨true, false, false, 3⟩, some rinkebyModal, []⟩).2.view.joinedWhitelist = true ∧
    (addAddressToWhitelist
        ⟨WalletReply.rinkeby, .resolved (), .resolved (), ⟨WalletReply.rinkeby, .resolved 5⟩⟩
        ⟨⟨true, false, false, 3⟩, some rinkebyModal, []⟩).2.view.numberOfWhitelisted = 5 :=
  have h := addAddressToWhitelist_success_state
    ⟨⟨true, false, false, 3⟩, some rinkebyModal, []⟩
    ⟨WalletReply.rinkeby, .resolved (), .resolved (), ⟨WalletReply.rinkeby, .resolved 5⟩⟩
    rinkebyModal rfl rfl rfl rfl rfl rfl rfl rfl
  ⟨h.2.2.1, h.2.2.2.2.1 5 rfl rfl rfl⟩

/-! ## Order of the state updates -/

theorem whileSuspended_nil {α : Type} (x : Async α) : whileSuspended [] x = x := by
  funext w
  simp [whileSuspended]

/-- Without pending closures the interleaved body is `addAddressToWhitelist`. -/
theorem addAddressToWhitelistAmid_none (r : JoinReply) :
    addAddressToWhitelistAmid Interference.none r = addAddressToWhitelist r := by
  simp [addAddressToWhitelistAmid, addAddressToWhitelist, Interference.none, whileSuspended_nil]

theorem mem_replay_append (s st : ViewState) (a b : List Event) :
    st ∈ replay s (a ++ b) ↔ st ∈ replay s a ∨ st ∈ replay (a.foldl Event.apply s) b := by
  induction a generalizing s with
  | nil =>
      cases b with
      | nil => simp [replay]
      | cons e es => simp [replay]
  | cons e es ih => simp [replay, ih, or_assoc]

theorem getLast_replay (s : ViewState) (evs : List Event) :
    (replay s evs).getLast? = some (evs.foldl Event.apply s) := by
  induction evs generalizing s with
  | nil => simp [replay]
  | cons e es ih =>
      have h := ih (e.apply s)
      cases hr : replay (Event.apply s e) es with
      | nil => rw [hr] at h; simp at h
      | cons a as => rw [hr] at h; simp [replay, hr, List.getLast?_cons_cons, h]

theorem apply_flags (s : ViewState) (e : Event) (h : e.writesFlag = false) :
    (e.apply s).joinedWhitelist = s.joinedWhitelist ∧ (e.apply s).loading = s.loading := by
  cases e <;> simp_all [Event.apply, Event.writesFlag]

theorem foldl_flags (s : ViewState) (evs : List Event) (h : ∀ e ∈ evs, e.writesFlag = false) :
    (evs.foldl Event.apply s).joinedWhitelist = s.joinedWhitelist ∧
    (evs.foldl Event.apply s).loading = s.loading := by
  induction evs generalizing s with
  | nil => simp
  | cons e es ih =>
      have h1 := apply_flags s e (h e (by simp))
      have h2 := ih (e.apply s) (fun e he => h e (by simp [he]))
      simp only [List.foldl_cons]
      exact ⟨h2.1.trans h1.1, h2.2.trans h1.2⟩

theorem replay_flags (s st : ViewState) (evs : List Event)
    (h : ∀ e ∈ evs, e.writesFlag = false) (hst : st ∈ replay s evs) :
    st.joinedWhitelist = s.joinedWhitelist ∧ st.loading = s.loading := by
  induction evs generalizing s with
  | nil => simp [replay] at hst; subst hst; exact ⟨rfl, rfl⟩
  | cons e es ih =>
      simp only [replay, List.mem_cons] at hst
      rcases hst with hst | hst
      · subst hst; exact ⟨rfl, rfl⟩
      · have h1 := apply_flags s e (h e (by simp))
        have h2 := ih (e.apply s) (fun e he => h e (by simp [he])) hst
        exact ⟨h2.1.trans h1.1, h2.2.trans h1.2⟩

/-- Closed form of the interleaved registration once the transaction was accepted and mined. -/
theorem addAddressToWhitelistAmid_mined (o : Interference) (v : ViewState) (m : Web3Modal)
    (log : List Event) (send wait : Unit) (c : Unit) (refresh : CountReply) :
    addAddressToWhitelistAmid o
        ⟨⟨.resolved c, .resolved 4⟩, .resolved send, .resolved wait, refresh⟩ ⟨v, some m, log⟩ =
      setJoinedWhitelist true
        (whileSuspended o.atRefresh (getNumberOfWhitelisted refresh)
          ⟨{ o.atWait.foldl Event.apply
              { o.atSend.foldl Event.apply (o.atHandle.foldl Event.apply v) with
                loading := true } with loading := false },
            some m,
            log ++ ([.getProviderOrSigner true, .connect, .getNetwork, .getSigner] ++
              (o.atHandle ++ ([.newContract .signer, .call .signer .addToWhitelist] ++
                (o.atSend ++ ([.setLoading true, .txWait] ++
                  (o.atWait ++ [.setLoading false]))))))⟩).2 := by
  simp only [addAddressToWhitelistAmid, getProviderOrSigner_eq, Async.andThen, Async.attempt,
    emit, newContract, Contract.invoke, setLoading, await, Async.bind_run, Async.tryCatch_run,
    Async.pure_run, if_true, List.append_assoc, List.singleton_append, List.cons_append,
    List.nil_append, whileSuspended]
  rw [getNumberOfWhitelisted_eta]
  rfl

/-- Trace of the count read: it never writes `joinedWhitelist` or `loading`, it holds at most
one state write, and the view it leaves is the replay of its trace. -/
theorem getNumberOfWhitelisted_trace_spec (r : CountReply) (w : World) :
    (∀ e ∈ trace (getNumberOfWhitelisted r) w, e.writesFlag = false) ∧
    (writesAndWaits (trace (getNumberOfWhitelisted r) w) = [] ∨
      ∃ n, writesAndWaits (trace (getNumberOfWhitelisted r) w) = [.setNumberOfWhitelisted n]) ∧
    (getNumberOfWhitelisted r w).2.view =
      (trace (getNumberOfWhitelisted r) w).foldl Event.apply w.view := by
  rcases w with ⟨v, ref, log⟩
  rcases r with ⟨⟨c, (n | e)⟩, cnt⟩
  · by_cases h : n = 4
    · subst h
      cases ref <;> cases c <;> cases cnt <;>
        simp [trace, getNumberOfWhitelisted, getProviderOrSigner_eq, Async.andThen, Async.attempt,
          emit, newContract, Contract.invoke, setNumberOfWhitelisted, writesAndWaits,
          Event.writesFlag, Event.apply]
    · cases ref <;> cases c <;> cases cnt <;>
        simp [h, trace, getNumberOfWhitelisted, getProviderOrSigner_eq, Async.andThen,
          Async.attempt, emit, newContract, Contract.invoke, setNumberOfWhitelisted,
          writesAndWaits, Event.writesFlag, Event.apply]
  · cases ref <;> cases c <;> cases cnt <;>
      simp [trace, getNumberOfWhitelisted, getProviderOrSigner_eq, Async.andThen, Async.attempt,
        emit, newContract, Contract.invoke, setNumberOfWhitelisted, writesAndWaits,
        Event.writesFlag, Event.apply]

/-- Trace of the interleaved registration once the transaction was accepted and mined. -/
theorem addAddressToWhitelistAmid_trace_mined (o : Interference) (v : ViewState)
    (m : Web3Modal) (log : List Event) (send wait : Unit) (c : Unit) (refresh : CountReply) :
    trace (addAddressToWhitelistAmid o
        ⟨⟨.resolved c, .resolved 4⟩, .resolved send, .resolved wait, refresh⟩) ⟨v, some m, log⟩ =
      [.getProviderOrSigner true, .connect, .getNetwork, .getSigner] ++
        (o.atHandle ++ ([.newContract .signer, .call .signer .addToWhitelist] ++
          (o.atSend ++ ([.setLoading true, .txWait] ++
            (o.atWait ++ ([.setLoading false] ++
              (trace (getNumberOfWhitelisted refresh)
                ⟨{ o.atWait.foldl Event.apply
                    { o.atSend.foldl Event.apply (o.atHandle.foldl Event.apply v) with
                      loading := true } with loading := false },
                  some m,
                  log ++ ([.getProviderOrSigner true, .connect, .getNetwork, .getSigner] ++
                    (o.atHandle ++ ([.newContract .signer, .call .signer .addToWhitelist] ++
                      (o.atSend ++ ([.setLoading true, .txWait] ++
                        (o.atWait ++ [.setLoading false]))))))⟩ ++
                (o.atRefresh ++ [.setJoinedWhitelist true])))))))) := by
  rw [trace, addAddressToWhitelistAmid_mined]
  simp only [setJoinedWhitelist, whileSuspended]
  rw [getNumberOfWhitelisted_eta]
  simp only
  rw [(getNumberOfWhitelisted_spec refresh _).2.2.1]
  simp

/-- The view left by the interleaved registration once the transaction was mined. -/
theorem addAddressToWhitelistAmid_view_mined (o : Interference) (v : ViewState)
    (m : Web3Modal) (log : List Event) (send wait : Unit) (c : Unit) (refresh : CountReply) :
    (addAddressToWhitelistAmid o
        ⟨⟨.resolved c, .resolved 4⟩, .resolved send, .resolved wait, refresh⟩
        ⟨v, some m, log⟩).2.view =
      (trace (addAddressToWhitelistAmid o
        ⟨⟨.resolved c, .resolved 4⟩, .resolved send, .resolved wait, refresh⟩)
        ⟨v, some m, log⟩).foldl Event.apply v := by
  rw [addAddressToWhitelistAmid_trace_mined, addAddressToWhitelistAmid_mined]
  simp only [setJoinedWhitelist, whileSuspended]
  rw [getNumberOfWhitelisted_eta]
  simp only
  rw [(getNumberOfWhitelisted_trace_spec refresh _).2.2]
  simp [List.foldl_append, Event.apply]

/-- Trace of the interleaved registration when the wait for inclusion is rejected. -/
theorem addAddressToWhitelistAmid_trace_reverted (o : Interference) (v : ViewState)
    (m : Web3Modal) (log : List Event) (send : Unit) (c : Unit) (e : JsError)
    (refresh : CountReply) :
    trace (addAddressToWhitelistAmid o
        ⟨⟨.resolved c, .resolved 4⟩, .resolved send, .rejected e, refresh⟩) ⟨v, some m, log⟩ =
      [.getProviderOrSigner true, .connect, .getNetwork, .getSigner] ++
        (o.atHandle ++ ([.newContract .signer, .call .signer .addToWhitelist] ++
          (o.atSend ++ ([.setLoading true, .txWait] ++
            (o.atWait ++ [.consoleLog e, .consoleLogAbi]))))) := by
  simp [trace, addAddressToWhitelistAmid, getProviderOrSigner_eq, Async.andThen, Async.attempt,
    emit, newContract, Contract.invoke, setLoading, await, whileSuspended]

theorem mem_replay_cons (s st : ViewState) (e : Event) (rest : List Event)
    (hst : st ∈ replay s (e :: rest)) : st = s ∨ st ∈ replay (e.apply s) rest := by
  simpa [replay] using hst

theorem mem_replay_neutral_append (s st : ViewState) (n rest : List Event)
    (hn : ∀ e ∈ n, e.writesFlag = false) (hst : st ∈ replay s (n ++ rest)) :
    (st.joinedWhitelist = s.joinedWhitelist ∧ st.loading = s.loading) ∨
    ∃ s1 : ViewState, s1.joinedWhitelist = s.joinedWhitelist ∧ s1.loading = s.loading ∧
      st ∈ replay s1 rest := by
  rw [mem_replay_append] at hst
  rcases hst with hst | hst
  · exact Or.inl (replay_flags s st n hn hst)
  · exact Or.inr ⟨_, (foldl_flags s n hn).1, (foldl_flags s n hn).2, hst⟩

/-- A trace whose only writes of `joinedWhitelist` and `loading` are `setLoading(true)`,
`setLoading(false)` and a final `setJoinedWhitelist(true)`, in this order, replayed from a not
joined state, never passes through a state that is joined and loading. -/
theorem replay_clear_before_join (s : ViewState) (n1 n2 n3 : List Event)
    (h1 : ∀ e ∈ n1, e.writesFlag = false) (h2 : ∀ e ∈ n2, e.writesFlag = false)
    (h3 : ∀ e ∈ n3, e.writesFlag = false) (hj : s.joinedWhitelist = false) :
    ∀ st ∈ replay s (n1 ++ (.setLoading true :: (n2 ++ (.setLoading false ::
        (n3 ++ [.setJoinedWhitelist true]))))),
      ¬ (st.joinedWhitelist = true ∧ st.loading = true) := by
  intro st hst
  rcases mem_replay_neutral_append s st n1 _ h1 hst with h | ⟨s1, j1, -, hst⟩
  · simp [h.1, hj]
  rcases mem_replay_cons _ _ _ _ hst with h | hst
  · simp [h, j1, hj]
  rcases mem_replay_neutral_append _ st n2 _ h2 hst with h | ⟨s2, j2, -, hst⟩
  · have hjs : st.joinedWhitelist = false := by rw [h.1]; exact j1.trans hj
    simp [hjs]
  have j2f : s2.joinedWhitelist = false := by rw [j2]; exact j1.trans hj
  rcases mem_replay_cons _ _ _ _ hst with h | hst
  · simp [h, j2f]
  rcases mem_replay_neutral_append _ st n3 _ h3 hst with h | ⟨s3, -, l3, hst⟩
  · have hls : st.loading = false := by rw [h.2]; rfl
    simp [hls]
  have l3f : s3.loading = false := by rw [l3]; rfl
  rcases mem_replay_cons _ _ _ _ hst with h | hst
  · simp [h, l3f]
  · simp only [replay, List.mem_singleton] at hst
    subst hst
    simp [Event.apply, l3f]

/-- C4 (amended): whatever other pending closures do while the function is suspended, a run
of `addAddressToWhitelist` whose transaction is accepted performs its own state writes in this
order: `setLoading(true)` right before the wait for inclusion begins; when the wait resolves,
`setLoading(false)`, then the count refresh (at most one `setNumberOfWhitelisted`), then
`setJoinedWhitelist(true)` last; when the wait is rejected, `loading` is not cleared and
`joinedWhitelist` is not written.  Replaying the trace of a successful run ends in its final
state.  When a successful run starts with `joinedWhitelist = false` and no other closure
writes `joinedWhitelist` or `loading` while it is pending, no state passed through has
`joinedWhitelist` and `loading` both true.  Without pending closures the interleaved body is
`addAddressToWhitelist` itself. -/
theorem addAddressToWhitelist_write_order (w : World) (r : JoinReply) (o : Interference)
    (m : Web3Modal) (href : w.web3ModalRef = some m)
    (hconn : r.wallet.connect = .resolved ()) (hnet : r.wallet.network = .resolved 4)
    (hsend : r.send = .resolved ()) :
    (r.wait = .resolved () →
      (∃ refresh : List Event,
        (∀ e ∈ refresh, e.writesFlag = false) ∧
        (writesAndWaits refresh = [] ∨
          ∃ n, writesAndWaits refresh = [Event.setNumberOfWhitelisted n]) ∧
        trace (addAddressToWhitelistAmid o r) w =
          [.getProviderOrSigner true, .connect, .getNetwork, .getSigner] ++ o.atHandle ++
          [.newContract .signer, .call .signer .addToWhitelist] ++ o.atSend ++
          [.setLoading true, .txWait] ++ o.atWait ++ [.setLoading false] ++ refresh ++
          o.atRefresh ++ [.setJoinedWhitelist true]) ∧
      (replay w.view (trace (addAddressToWhitelistAmid o r) w)).getLast? =
        some (addAddressToWhitelistAmid o r w).2.view ∧
      (w.view.joinedWhitelist = false →
        (∀ e ∈ o.atHandle ++ o.atSend ++ o.atWait ++ o.atRefresh, e.writesFlag = false) →
        ∀ st ∈ replay w.view (trace (addAddressToWhitelistAmid o r) w),
          ¬ (st.joinedWhitelist = true ∧ st.loading = true))) ∧
    (∀ e, r.wait = .rejected e →
      trace (addAddressToWhitelistAmid o r) w =
        [.getProviderOrSigner true, .connect, .getNetwork, .getSigner] ++ o.atHandle ++
        [.newContract .signer, .call .signer .addToWhitelist] ++ o.atSend ++
        [.setLoading true, .txWait] ++ o.atWait ++ [.consoleLog e, .consoleLogAbi]) ∧
    addAddressToWhitelistAmid Interference.none r = addAddressToWhitelist r := by
  rcases w with ⟨v, ref, log⟩
  rcases r with ⟨⟨c, net⟩, send, wait, refresh⟩
  simp only at href hconn hnet hsend
  subst href hconn hnet hsend
  refine ⟨fun hw => ?_, fun e hw => ?_, addAddressToWhitelistAmid_none _⟩
  · simp only at hw
    subst hw
    obtain ⟨T, hT, t1, t2⟩ : ∃ T : List Event,
        trace (addAddressToWhitelistAmid o
          ⟨⟨.resolved (), .resolved 4⟩, .resolved (), .resolved (), refresh⟩) ⟨v, some m, log⟩ =
          [.getProviderOrSigner true, .connect, .getNetwork, .getSigner] ++
            (o.atHandle ++ ([.newContract .signer, .call .signer .addToWhitelist] ++
              (o.atSend ++ ([.setLoading true, .txWait] ++
                (o.atWait ++ ([.setLoading false] ++
                  (T ++ (o.atRefresh ++ [.setJoinedWhitelist true])))))))) ∧
        (∀ e ∈ T, e.writesFlag = false) ∧
        (writesAndWaits T = [] ∨ ∃ n, writesAndWaits T = [Event.setNumberOfWhitelisted n]) :=
      ⟨_, addAddressToWhitelistAmid_trace_mined o v m log () () () refresh,
        (getNumberOfWhitelisted_trace_spec refresh _).1,
        (getNumberOfWhitelisted_trace_spec refresh _).2.1⟩
    refine ⟨⟨T, t1, t2, ?_⟩, ?_, ?_⟩
    · rw [hT]
      simp only [List.append_assoc]
    · rw [getLast_replay, addAddressToWhitelistAmid_view_mined]
    · intro hj ho st hst
      rw [hT] at hst
      refine replay_clear_before_join v
        ([.getProviderOrSigner true, .connect, .getNetwork, .getSigner] ++
          (o.atHandle ++ ([.newContract .signer, .call .signer .addToWhitelist] ++ o.atSend)))
        (.txWait :: o.atWait) (T ++ o.atRefresh) ?_ ?_ ?_ hj st ?_
      · intro e he
        simp only [List.mem_append, List.mem_cons, List.mem_singleton, List.not_mem_nil,
          or_false] at he
        rcases he with (he | he | he | he) | he | (he | he) | he
        · subst he; rfl
        · subst he; rfl
        · subst he; rfl
        · subst he; rfl
        · exact ho e (by simp [he])
        · subst he; rfl
        · subst he; rfl
        · exact ho e (by simp [he])
      · intro e he
        simp only [List.mem_cons] at he
        rcases he with he | he
        · subst he; rfl
        · exact ho e (by simp [he])
      · intro e he
        simp only [List.mem_append] at he
        rcases he with he | he
        · exact t1 e he
        · exact ho e (by simp [he])
      · simpa [List.append_assoc] using hst
  · simp only at hw
    subst hw
    rw [addAddressToWhitelistAmid_trace_reverted]
    simp only [List.append_assoc]

/-- C4 (as stated) fails: the page shows the join button (connected, not joined, not loading,
3 displayed) and the membership read started by `connectWallet` (line 158, not awaited) is
still pending; its only state write is `setJoinedWhitelist(true)`.  When that write lands
while `addAddressToWhitelist` is suspended at `tx.wait()`, the run still succeeds and ends
joined and not loading, but it passes through a state with `joinedWhitelist` and `loading`
both true. -/
theorem addAddressToWhitelist_joined_while_loading :
    renderButton ⟨true, false, false, 3⟩ = joinButton ∧
    writes (trace (checkIfAddressInWhitelist ⟨WalletReply.rinkeby, .resolved true⟩)
      ⟨⟨true, false, false, 3⟩, some rinkebyModal, []⟩) = [.setJoinedWhitelist true] ∧
    (addAddressToWhitelistAmid
        ⟨[], [], writes (trace (checkIfAddressInWhitelist ⟨WalletReply.rinkeby, .resolved true⟩)
          ⟨⟨true, false, false, 3⟩, some rinkebyModal, []⟩), []⟩
        ⟨WalletReply.rinkeby, .resolved (), .resolved (), ⟨WalletReply.rinkeby, .resolved 4⟩⟩
        ⟨⟨true, false, false, 3⟩, some rinkebyModal, []⟩).2.view = ⟨true, true, false, 4⟩ ∧
    ¬ ∀ st ∈ replay ⟨true, false, false, 3⟩
        (trace (addAddressToWhitelistAmid
          ⟨[], [], writes (trace (checkIfAddressInWhitelist ⟨WalletReply.rinkeby, .resolved true⟩)
            ⟨⟨true, false, false, 3⟩, some rinkebyModal, []⟩), []⟩
          ⟨WalletReply.rinkeby, .resolved (), .resolved (), ⟨WalletReply.rinkeby, .resolved 4⟩⟩)
          ⟨⟨true, false, false, 3⟩, some rinkebyModal, []⟩),
      ¬ (st.joinedWhitelist = true ∧ st.loading = true) :=
  ⟨by decide, by decide, by decide,
    fun h => h ⟨true, true, true, 3⟩ (by decide) ⟨rfl, rfl⟩⟩

/-- Instance of C4 (amended): a successful run from the join-button state showing 3, with a
count read of another closure landing during the wait; the run ends joined showing the
refreshed count, and the state it is in while waiting is loading but not joined. -/
theorem addAddressToWhitelist_write_order_witness :
    (replay ⟨true, false, false, 3⟩
        (trace (addAddressToWhitelistAmid ⟨[], [], [.setNumberOfWhitelisted 3], []⟩
          ⟨WalletReply.rinkeby, .resolved (), .resolved (), ⟨WalletReply.rinkeby, .resolved 4⟩⟩)
          ⟨⟨true, false, false, 3⟩, some rinkebyModal, []⟩)).getLast? =
      some ⟨true, true, false, 4⟩ ∧
    (⟨true, false, true, 3⟩ : ViewState) ∈ replay ⟨true, false, false, 3⟩
        (trace (addAddressToWhitelistAmid ⟨[], [], [.setNumberOfWhitelisted 3], []⟩
          ⟨WalletReply.rinkeby, .resolved (), .resolved (), ⟨WalletReply.rinkeby, .resolved 4⟩⟩)
          ⟨⟨true, false, false, 3⟩, some rinkebyModal, []⟩) ∧
    ¬ ((⟨true, false, true, 3⟩ : ViewState).joinedWhitelist = true ∧
        (⟨true, false, true, 3⟩ : ViewState).loading = true) :=
  have h := (addAddressToWhitelist_write_order ⟨⟨true, false, false, 3⟩, some rinkebyModal, []⟩
    ⟨WalletReply.rinkeby, .resolved (), .resolved (), ⟨WalletReply.rinkeby, .resolved 4⟩⟩
    ⟨[], [], [.setNumberOfWhitelisted 3], []⟩ rinkebyModal rfl rfl rfl rfl).1 rfl
  ⟨h.2.1.trans (by decide), by decide,
    h.2.2 rfl (by decide) ⟨true, false, true, 3⟩ (by decide)⟩

/-! ## Failure paths of the registration -/

/-- C9: when the wait for inclusion is rejected (after `setLoading(true)`),
`addAddressToWhitelist` resolves, its only state write is `setLoading(true)`, so `loading` is
true and the other cells are unchanged, and from a connected, not joined state `renderButton`
returns the inert loading button.  When the run fails before the mutation call returns
(reference unset, connection or network query rejected, wrong network, prompt rejected), it
resolves without any state write and `loading` keeps its pre-call value. -/
theorem addAddressToWhitelist_failure_keeps_loading (w : World) (r : JoinReply) :
    (∀ m e, w.web3ModalRef = some m → r.wallet.connect = .resolved () →
      r.wallet.network = .resolved 4 → r.send = .resolved () → r.wait = .rejected e →
      (addAddressToWhitelist r w).1 = .resolved () ∧
      writes (trace (addAddressToWhitelist r) w) = [.setLoading true] ∧
      (addAddressToWhitelist r w).2.view = { w.view with loading := true } ∧
      (w.view.walletConnected = true → w.view.joinedWhitelist = false →
        renderButton (addAddressToWhitelist r w).2.view = loadingButton)) ∧
    ((w.web3ModalRef = none ∨ (∃ e, r.wallet.connect = .rejected e) ∨
        (∃ e, r.wallet.network = .rejected e) ∨
        (∃ c, r.wallet.network = .resolved c ∧ c ≠ 4) ∨ (∃ e, r.send = .rejected e)) →
      (addAddressToWhitelist r w).1 = .resolved () ∧
      writes (trace (addAddressToWhitelist r) w) = [] ∧
      (addAddressToWhitelist r w).2.view = w.view ∧
      (addAddressToWhitelist r w).2.view.loading = w.view.loading) := by
  refine ⟨fun m e href hconn hnet hsend hwait => ?_, fun hfail => ?_⟩
  · rcases w with ⟨v, ref, log⟩
    rcases r with ⟨⟨c, net⟩, send, wait, refresh⟩
    simp only at href hconn hnet hsend hwait
    subst href hconn hnet hsend hwait
    rcases v with ⟨vc, vj, vl, vn⟩
    simp [trace, addAddressToWhitelist, getProviderOrSigner_eq, Async.andThen,
      Async.attempt, emit, newContract, Contract.invoke, writes, setLoading, await]
    intro h1 h2
    simp [h1, h2, renderButton, loadingButton]
  · rcases w with ⟨v, ref, log⟩
    rcases r with ⟨⟨c, (n | en)⟩, send, wait, refresh⟩
    · by_cases h : n = 4
      · subst h
        cases ref <;> cases c <;> cases send <;>
          simp_all [trace, addAddressToWhitelist, getProviderOrSigner_eq, Async.andThen,
            Async.attempt, emit, newContract, Contract.invoke, writes]
      · cases ref <;> cases c <;> cases send <;>
          simp_all [trace, addAddressToWhitelist, getProviderOrSigner_eq, Async.andThen,
            Async.attempt, emit, newContract, Contract.invoke, writes]
    · cases ref <;> cases c <;> cases send <;>
        simp_all [trace, addAddressToWhitelist, getProviderOrSigner_eq, Async.andThen,
          Async.attempt, emit, newContract, Contract.invoke, writes]

/-- Instance of C9: a reverted transaction, and a wallet on chain id 1. -/
theorem addAddressToWhitelist_failure_keeps_loading_witness :
    (addAddressToWhitelist
        ⟨WalletReply.rinkeby, .resolved (), .rejected (.outside "transaction reverted"),
          ⟨WalletReply.rinkeby, .resolved 3⟩⟩
        ⟨⟨true, false, false, 3⟩, some rinkebyModal, []⟩).2.view = ⟨true, false, true, 3⟩ ∧
    renderButton (addAddressToWhitelist
        ⟨WalletReply.rinkeby, .resolved (), .rejected (.outside "transaction reverted"),
          ⟨WalletReply.rinkeby, .resolved 3⟩⟩
        ⟨⟨true, false, false, 3⟩, some rinkebyModal, []⟩).2.view = loadingButton ∧
    (addAddressToWhitelist
        ⟨WalletReply.mainnet, .resolved (), .resolved (), ⟨WalletReply.rinkeby, .resolved 3⟩⟩
        ⟨⟨true, false, false, 3⟩, some rinkebyModal, []⟩).2.view.loading = false :=
  have h1 := (addAddressToWhitelist_failure_keeps_loading
    ⟨⟨true, false, false, 3⟩, some rinkebyModal, []⟩
    ⟨WalletReply.rinkeby, .resolved (), .rejected (.outside "transaction reverted"),
      ⟨WalletReply.rinkeby, .resolved 3⟩⟩).1 rinkebyModal (.outside "transaction reverted")
    rfl rfl rfl rfl rfl
  have h2 := (addAddressToWhitelist_failure_keeps_loading
    ⟨⟨true, false, false, 3⟩, some rinkebyModal, []⟩
    ⟨WalletReply.mainnet, .resolved (), .resolved (), ⟨WalletReply.rinkeby, .resolved 3⟩⟩).2
    (Or.inr (Or.inr (Or.inr (Or.inl ⟨1, rfl, by decide⟩))))
  ⟨h1.2.2.1, h1.2.2.2 rfl rfl, h2.2.2.2⟩

/-! ## Composite runs -/

theorem requested_append (a b : List Event) : requested (a ++ b) = requested a ++ requested b := by
  induction a with
  | nil => rfl
  | cons e es ih => cases e <;> simp [requested, ih]

theorem calls_append (a b : List Event) : calls (a ++ b) = calls a ++ calls b := by
  induction a with
  | nil => rfl
  | cons e es ih => cases e <;> simp [calls, ih]

/-- `checkIfAddressInWhitelist` always resolves. -/
theorem checkIfAddressInWhitelist_eta (r : MemberReply) (w : World) :
    checkIfAddressInWhitelist r w = (.resolved (), (checkIfAddressInWhitelist r w).2) := by
  have h := (checkIfAddressInWhitelist_spec r w).1
  generalize checkIfAddressInWhitelist r w = out at h
  rcases out with ⟨o, w1⟩
  simp only at h
  subst h
  rfl

/-- Trace of a registration whose transaction was accepted and mined. -/
theorem addAddressToWhitelist_trace_mined (v : ViewState) (m : Web3Modal) (log : List Event)
    (send wait : Unit) (c : Unit) (refresh : CountReply) :
    trace (addAddressToWhitelist
        ⟨⟨.resolved c, .resolved 4⟩, .resolved send, .resolved wait, refresh⟩) ⟨v, some m, log⟩ =
      [.getProviderOrSigner true, .connect, .getNetwork, .getSigner, .newContract .signer,
        .call .signer .addToWhitelist, .setLoading true, .txWait, .setLoading false] ++
      trace (getNumberOfWhitelisted refresh)
        ⟨{ v with loading := false }, some m,
          log ++ [.getProviderOrSigner true, .connect, .getNetwork, .getSigner,
            .newContract .signer, .call .signer .addToWhitelist, .setLoading true, .txWait,
            .setLoading false]⟩ ++
      [.setJoinedWhitelist true] := by
  rw [trace, addAddressToWhitelist_mined]
  simp only [setJoinedWhitelist]
  rw [(getNumberOfWhitelisted_spec refresh _).2.2.1]
  simp

/-- Closed form of `connectWallet` once the handle was obtained. -/
theorem connectWallet_connected (v : ViewState) (m : Web3Modal) (log : List Event) (c : Unit)
    (membership : MemberReply) (count : CountReply) :
    connectWallet ⟨⟨.resolved c, .resolved 4⟩, membership, count⟩ ⟨v, some m, log⟩ =
      (.resolved (),
        (getNumberOfWhitelisted count
          (checkIfAddressInWhitelist membership
            ⟨{ v with walletConnected := true }, some m,
              log ++ [.getProviderOrSigner false, .connect, .getNetwork,
                .setWalletConnected true]⟩).2).2) := by
  simp [connectWallet, getProviderOrSigner_eq, Async.andThen, Async.attempt, setWalletConnected,
    spawn]

/-- Trace of `connectWallet` once the handle was obtained. -/
theorem connectWallet_trace_connected (v : ViewState) (m : Web3Modal) (log : List Event)
    (c : Unit) (membership : MemberReply) (count : CountReply) :
    trace (connectWallet ⟨⟨.resolved c, .resolved 4⟩, membership, count⟩) ⟨v, some m, log⟩ =
      [.getProviderOrSigner false, .connect, .getNetwork, .setWalletConnected true] ++
      trace (checkIfAddressInWhitelist membership)
        ⟨{ v with walletConnected := true }, some m,
          log ++ [.getProviderOrSigner false, .connect, .getNetwork,
            .setWalletConnected true]⟩ ++
      trace (getNumberOfWhitelisted count)
        (checkIfAddressInWhitelist membership
          ⟨{ v with walletConnected := true }, some m,
            log ++ [.getProviderOrSigner false, .connect, .getNetwork,
              .setWalletConnected true]⟩).2 := by
  rw [trace, connectWallet_connected]
  simp only
  rw [(getNumberOfWhitelisted_spec count _).2.2.1,
    (checkIfAddressInWhitelist_spec membership _).2.2.1]
  simp

/-- The count read keeps `walletConnected`. -/
theorem getNumberOfWhitelisted_walletConnected (r : CountReply) (w : World) :
    (getNumberOfWhitelisted r w).2.view.walletConnected = w.view.walletConnected := by
  obtain ⟨-, -, -, -, -, h6, -⟩ := getNumberOfWhitelisted_spec r w
  rcases h6 with ⟨-, h⟩ | ⟨k, -, -, -, -, -, h⟩ <;> simp [h]

/-- The count read keeps `joinedWhitelist`. -/
theorem getNumberOfWhitelisted_joinedWhitelist (r : CountReply) (w : World) :
    (getNumberOfWhitelisted r w).2.view.joinedWhitelist = w.view.joinedWhitelist := by
  obtain ⟨-, -, -, -, -, h6, -⟩ := getNumberOfWhitelisted_spec r w
  rcases h6 with ⟨-, h⟩ | ⟨k, -, -, -, -, -, h⟩ <;> simp [h]

/-- The membership read keeps `walletConnected`. -/
theorem checkIfAddressInWhitelist_walletConnected (r : MemberReply) (w : World) :
    (checkIfAddressInWhitelist r w).2.view.walletConnected = w.view.walletConnected := by
  obtain ⟨-, -, -, -, -, h6, -⟩ := checkIfAddressInWhitelist_spec r w
  rcases h6 with ⟨-, h⟩ | ⟨k, -, -, -, -, -, h⟩ <;> simp [h]

/-- The membership read leaves `joinedWhitelist = false` exactly when it is reached and
resolves `false`, or when nothing is written and the cell was already `false`. -/
theorem checkIfAddressInWhitelist_joinedWhitelist (r : MemberReply) (w : World)
    (hj : w.view.joinedWhitelist = true) :
    (checkIfAddressInWhitelist r w).2.view.joinedWhitelist = false ↔
      (w.web3ModalRef ≠ none ∧ r.wallet.connect = .resolved () ∧
        r.wallet.network = .resolved 4 ∧ r.member = .resolved false) := by
  obtain ⟨-, -, -, -, -, h6, h7⟩ := checkIfAddressInWhitelist_spec r w
  constructor
  · intro hf
    rcases h6 with ⟨-, h⟩ | ⟨b, h1, h2, h3, h4, -, h⟩
    · rw [h, hj] at hf; cases hf
    · rw [h] at hf
      simp only at hf
      subst hf
      exact ⟨h1, h2, h3, h4⟩
  · rintro ⟨h1, h2, h3, h4⟩
    rw [h7 false h1 h2 h3 h4]

/-- Frame of `addAddressToWhitelist` on `walletConnected` and `joinedWhitelist`. -/
theorem addAddressToWhitelist_frame (r : JoinReply) (w : World) :
    (addAddressToWhitelist r w).2.view.walletConnected = w.view.walletConnected ∧
    ((addAddressToWhitelist r w).2.view.joinedWhitelist = w.view.joinedWhitelist ∨
      (addAddressToWhitelist r w).2.view.joinedWhitelist = true) := by
  rcases w with ⟨v, ref, log⟩
  rcases r with ⟨⟨c, (n | en)⟩, send, wait, refresh⟩
  · by_cases h : n = 4
    · subst h
      cases ref <;> cases c <;> cases send <;> cases wait
      case pos.some.resolved.resolved.resolved =>
        rw [addAddressToWhitelist_mined]
        simp [setJoinedWhitelist, getNumberOfWhitelisted_walletConnected]
      all_goals
        simp [addAddressToWhitelist, getProviderOrSigner_eq, Async.andThen,
          Async.attempt, emit, newContract, Contract.invoke, setLoading, await]
    · cases ref <;> cases c <;> cases send <;>
        simp [h, addAddressToWhitelist, getProviderOrSigner_eq, Async.andThen,
          Async.attempt, emit, newContract, Contract.invoke]
  · cases ref <;> cases c <;> cases send <;>
      simp [addAddressToWhitelist, getProviderOrSigner_eq, Async.andThen,
        Async.attempt, emit, newContract, Contract.invoke]

/-- Effect of `connectWallet` on the view: nothing when the handle is not obtained, otherwise
`walletConnected` is set and the two reads run. -/
theorem connectWallet_view (r : ConnectReply) (w : World) :
    (w.web3ModalRef ≠ none ∧ r.wallet.connect = .resolved () ∧
      r.wallet.network = .resolved 4 ∧
      (connectWallet r w).2.view =
        (getNumberOfWhitelisted r.count
          (checkIfAddressInWhitelist r.membership
            ⟨{ w.view with walletConnected := true }, w.web3ModalRef,
              w.log ++ [.getProviderOrSigner false, .connect, .getNetwork,
                .setWalletConnected true]⟩).2).2.view) ∨
    ((w.web3ModalRef = none ∨ r.wallet.connect ≠ .resolved () ∨
        r.wallet.network ≠ .resolved 4) ∧
      (connectWallet r w).2.view = w.view) := by
  rcases w with ⟨v, ref, log⟩
  rcases r with ⟨⟨c, (n | en)⟩, membership, count⟩
  · by_cases h : n = 4
    · subst h
      cases ref <;> cases c
      case pos.some.resolved =>
        left
        rw [connectWallet_connected]
        simp
      all_goals
        simp [connectWallet, getProviderOrSigner_eq, Async.andThen, Async.attempt, emit]
    · cases ref <;> cases c <;>
        simp [h, connectWallet, getProviderOrSigner_eq, Async.andThen, Async.attempt, emit]
  · cases ref <;> cases c <;>
      simp [connectWallet, getProviderOrSigner_eq, Async.andThen, Async.attempt, emit]

/-! ## Transitions out of the joined state -/

/-- C8 (amended): from a connected and joined state, every operation leaves
`walletConnected = true`; `getNumberOfWhitelisted` and `addAddressToWhitelist` leave
`joinedWhitelist = true` and the connection effect changes nothing; `checkIfAddressInWhitelist`,
run directly or started by `connectWallet`, leaves `joinedWhitelist = true` unless its
membership read is reached and resolves `false`, in which case `joinedWhitelist` becomes
`false`. -/
theorem connected_joined_kept_unless_membership_false (w : World)
    (hc : w.view.walletConnected = true) (hj : w.view.joinedWhitelist = true) :
    (∀ op : Op, (op.run w).view.walletConnected = true) ∧
    (∀ r, (Op.run (.getNumberOfWhitelisted r) w).view.joinedWhitelist = true) ∧
    (∀ r, (Op.run (.addAddressToWhitelist r) w).view.joinedWhitelist = true) ∧
    (∀ r, Op.run (.connectionEffect r) w = w) ∧
    (∀ r : MemberReply,
      (Op.run (.checkIfAddressInWhitelist r) w).view.joinedWhitelist = false ↔
        (w.web3ModalRef ≠ none ∧ r.wallet.connect = .resolved () ∧
          r.wallet.network = .resolved 4 ∧ r.member = .resolved false)) ∧
    (∀ r : ConnectReply,
      (Op.run (.connectWallet r) w).view.joinedWhitelist = false ↔
        (w.web3ModalRef ≠ none ∧ r.wallet.connect = .resolved () ∧
          r.wallet.network = .resolved 4 ∧ r.membership.wallet.connect = .resolved () ∧
          r.membership.wallet.network = .resolved 4 ∧
          r.membership.member = .resolved false)) := by
  have heff : ∀ r, connectionEffect r w = (.resolved (), w) := by
    intro r; simp [connectionEffect, hc]
  have hcw : ∀ r : ConnectReply, (connectWallet r w).2.view.walletConnected = true := by
    intro r
    rcases connectWallet_view r w with ⟨-, -, -, h⟩ | ⟨-, h⟩
    · rw [h, getNumberOfWhitelisted_walletConnected, checkIfAddressInWhitelist_walletConnected]
    · rw [h, hc]
  refine ⟨?_, ?_, ?_, ?_, ?_, ?_⟩
  · intro op
    cases op with
    | connectWallet r => exact hcw r
    | checkIfAddressInWhitelist r =>
        simp [Op.run, checkIfAddressInWhitelist_walletConnected, hc]
    | getNumberOfWhitelisted r => simp [Op.run, getNumberOfWhitelisted_walletConnected, hc]
    | addAddressToWhitelist r => simp [Op.run, (addAddressToWhitelist_frame r w).1, hc]
    | connectionEffect r => simp [Op.run, heff, hc]
  · intro r
    simp [Op.run, getNumberOfWhitelisted_joinedWhitelist, hj]
  · intro r
    rcases (addAddressToWhitelist_frame r w).2 with h | h
    · simp [Op.run, h, hj]
    · simp [Op.run, h]
  · intro r
    simp [Op.run, heff]
  · intro r
    exact checkIfAddressInWhitelist_joinedWhitelist r w hj
  · intro r
    simp only [Op.run]
    rcases connectWallet_view r w with ⟨h1, h2, h3, h⟩ | ⟨hfail, h⟩
    · have hW := checkIfAddressInWhitelist_joinedWhitelist r.membership
        ⟨{ w.view with walletConnected := true }, w.web3ModalRef,
          w.log ++ [.getProviderOrSigner false, .connect, .getNetwork,
            .setWalletConnected true]⟩ hj
      rw [h, getNumberOfWhitelisted_joinedWhitelist, hW]
      simp [h1, h2, h3]
    · rw [h, hj]
      constructor
      · intro hf; cases hf
      · rintro ⟨h1, h2, h3, -⟩
        rcases hfail with h | h | h
        · exact absurd h h1
        · exact absurd h2 h
        · exact absurd h3 h

/-- C8 (as stated) fails: from a connected and joined state, a membership read that resolves
`false` sets `joinedWhitelist` back to `false`. -/
theorem joined_state_left_by_membership_read :
    ¬ ∀ (w : World) (op : Op), w.view.walletConnected = true →
      w.view.joinedWhitelist = true →
      (op.run w).view.walletConnected = true ∧ (op.run w).view.joinedWhitelist = true := by
  intro h
  have h1 := (h ⟨⟨true, true, false, 3⟩, some rinkebyModal, []⟩
    (.checkIfAddressInWhitelist ⟨WalletReply.rinkeby, .resolved false⟩) rfl rfl).2
  revert h1
  decide

/-- Instance of C8 (amended): a connected and joined page showing 3; the count read keeps
`joinedWhitelist`, a membership read resolving `false` clears it. -/
theorem connected_joined_kept_unless_membership_false_witness :
    (Op.run (.getNumberOfWhitelisted ⟨WalletReply.rinkeby, .resolved 4⟩)
      ⟨⟨true, true, false, 3⟩, some rinkebyModal, []⟩).view.joinedWhitelist = true ∧
    (Op.run (.checkIfAddressInWhitelist ⟨WalletReply.rinkeby, .resolved false⟩)
      ⟨⟨true, true, false, 3⟩, some rinkebyModal, []⟩).view.joinedWhitelist = false :=
  have h := connected_joined_kept_unless_membership_false
    ⟨⟨true, true, false, 3⟩, some rinkebyModal, []⟩ rfl rfl
  ⟨h.2.1 _, (h.2.2.2.2.1 ⟨WalletReply.rinkeby, .resolved false⟩).2
    ⟨by decide, rfl, rfl, rfl⟩⟩

/-! ## Which handle is requested -/

/-- Calls of a registration run: the mutating call through the signer, then at most the count
read through the provider; its own request asks for the signer. -/
theorem addAddressToWhitelist_requests (r : JoinReply) (w : World) :
    (requested (trace (addAddressToWhitelist r) w)).head? = some true ∧
    (∀ c ∈ calls (trace (addAddressToWhitelist r) w),
      c = (Handle.signer, ContractMethod.addToWhitelist) ∨
      c = (Handle.web3Provider, ContractMethod.numAddressesWhitelisted)) ∧
    (w.web3ModalRef ≠ none → r.wallet.connect = .resolved () →
      r.wallet.network = .resolved 4 →
      (calls (trace (addAddressToWhitelist r) w)).head? =
        some (Handle.signer, ContractMethod.addToWhitelist)) := by
  rcases w with ⟨v, ref, log⟩
  rcases r with ⟨⟨c, (n | en)⟩, send, wait, refresh⟩
  · by_cases h : n = 4
    · subst h
      cases ref <;> cases c <;> cases send <;> cases wait
      case pos.some.resolved.resolved.resolved =>
        rw [addAddressToWhitelist_trace_mined]
        obtain ⟨-, -, -, h4, h5, -, -⟩ := getNumberOfWhitelisted_spec refresh
          ⟨{ v with loading := false }, some _,
            log ++ [.getProviderOrSigner true, .connect, .getNetwork, .getSigner,
              .newContract .signer, .call .signer .addToWhitelist, .setLoading true, .txWait,
              .setLoading false]⟩
        refine ⟨by simp [requested], ?_, by simp [calls]⟩
        intro c hc
        rw [calls_append, calls_append, List.mem_append, List.mem_append] at hc
        rcases hc with (hc | hc) | hc
        · simp [calls] at hc
          exact Or.inl hc
        · exact Or.inr (h5 c hc)
        · simp [calls] at hc
      all_goals
        simp [trace, addAddressToWhitelist, getProviderOrSigner_eq, Async.andThen,
          Async.attempt, emit, newContract, Contract.invoke, setLoading, await, requested, calls]
    · cases ref <;> cases c <;> cases send <;>
        simp [h, trace, addAddressToWhitelist, getProviderOrSigner_eq, Async.andThen,
          Async.attempt, emit, newContract, Contract.invoke, requested, calls]
  · cases ref <;> cases c <;> cases send <;>
      simp [trace, addAddressToWhitelist, getProviderOrSigner_eq, Async.andThen,
        Async.attempt, emit, newContract, Contract.invoke, requested, calls]

/-- Calls of a `connectWallet` run: its own request asks for the read-only handle, and every
contract call in its trace is one of the two reads. -/
theorem connectWallet_requests (r : ConnectReply) (w : World) :
    (requested (trace (connectWallet r) w)).head? = some false ∧
    (∀ c ∈ calls (trace (connectWallet r) w),
      c = (Handle.signer, ContractMethod.whitelistedAddress) ∨
      c = (Handle.web3Provider, ContractMethod.numAddressesWhitelisted)) := by
  rcases w with ⟨v, ref, log⟩
  rcases r with ⟨⟨c, (n | en)⟩, membership, count⟩
  · by_cases h : n = 4
    · subst h
      cases ref <;> cases c
      case pos.some.resolved =>
        rw [connectWallet_trace_connected]
        refine ⟨by simp [requested], ?_⟩
        intro c hc
        rw [calls_append, calls_append, List.mem_append, List.mem_append] at hc
        rcases hc with (hc | hc) | hc
        · simp [calls] at hc
        · exact Or.inl ((checkIfAddressInWhitelist_spec membership _).2.2.2.2.1 c hc)
        · exact Or.inr ((getNumberOfWhitelisted_spec count _).2.2.2.2.1 c hc)
      all_goals
        simp [trace, connectWallet, getProviderOrSigner_eq, Async.andThen, Async.attempt, emit,
          requested, calls]
    · cases ref <;> cases c <;>
        simp [h, trace, connectWallet, getProviderOrSigner_eq, Async.andThen, Async.attempt,
          emit, requested, calls]
  · cases ref <;> cases c <;>
      simp [trace, connectWallet, getProviderOrSigner_eq, Async.andThen, Async.attempt, emit,
        requested, calls]

/-- C10 (amended): `getNumberOfWhitelisted` and `connectWallet` request the read-only handle
and the contract calls of their runs are reads; `addAddressToWhitelist` requests the signer,
its only mutating call is `addToWhitelist` through the signer, issued as soon as the handle is
obtained; `checkIfAddressInWhitelist` requests the signer although the only call it issues is
the read `whitelistedAddress`; with the reference set, the connection accepted and the network
4, `getProviderOrSigner` returns the signer exactly when `needSigner` is true and the
read-only provider otherwise. -/
theorem signer_requested_by_registration_and_membership (w : World) :
    (∀ r : CountReply,
      requested (trace (getNumberOfWhitelisted r) w) = [false] ∧
      ∀ c ∈ calls (trace (getNumberOfWhitelisted r) w),
        c = (Handle.web3Provider, ContractMethod.numAddressesWhitelisted) ∧
          c.2.mutates = false) ∧
    (∀ r : ConnectReply,
      (requested (trace (connectWallet r) w)).head? = some false ∧
      ∀ c ∈ calls (trace (connectWallet r) w), c.2.mutates = false) ∧
    (∀ r : JoinReply,
      (requested (trace (addAddressToWhitelist r) w)).head? = some true ∧
      (∀ c ∈ calls (trace (addAddressToWhitelist r) w),
        c.2.mutates = true → c = (Handle.signer, ContractMethod.addToWhitelist)) ∧
      (w.web3ModalRef ≠ none → r.wallet.connect = .resolved () →
        r.wallet.network = .resolved 4 →
        (calls (trace (addAddressToWhitelist r) w)).head? =
          some (Handle.signer, ContractMethod.addToWhitelist))) ∧
    (∀ r : MemberReply,
      requested (trace (checkIfAddressInWhitelist r) w) = [true] ∧
      ∀ c ∈ calls (trace (checkIfAddressInWhitelist r) w),
        c = (Handle.signer, ContractMethod.whitelistedAddress) ∧ c.2.mutates = false) ∧
    (∀ (needSigner : Bool) (m : Web3Modal), w.web3ModalRef = some m →
      (getProviderOrSigner needSigner WalletReply.rinkeby w).1 =
          .resolved (if needSigner then Handle.signer else Handle.web3Provider) ∧
      ((getProviderOrSigner needSigner WalletReply.rinkeby w).1 = .resolved Handle.signer ↔
        needSigner = true)) := by
  refine ⟨fun r => ?_, fun r => ?_, fun r => ?_, fun r => ?_, fun b m href => ?_⟩
  · obtain ⟨-, -, -, h4, h5, -, -⟩ := getNumberOfWhitelisted_spec r w
    refine ⟨h4, fun c hc => ?_⟩
    have := h5 c hc
    subst this
    exact ⟨rfl, rfl⟩
  · obtain ⟨h1, h2⟩ := connectWallet_requests r w
    refine ⟨h1, fun c hc => ?_⟩
    rcases h2 c hc with h | h <;> subst h <;> rfl
  · obtain ⟨h1, h2, h3⟩ := addAddressToWhitelist_requests r w
    refine ⟨h1, fun c hc hm => ?_, h3⟩
    rcases h2 c hc with h | h
    · exact h
    · subst h
      cases hm
  · obtain ⟨-, -, -, h4, h5, -, -⟩ := checkIfAddressInWhitelist_spec r w
    refine ⟨h4, fun c hc => ?_⟩
    have := h5 c hc
    subst this
    exact ⟨rfl, rfl⟩
  · rcases w with ⟨v, ref, log⟩
    simp only at href
    subst href
    cases b <;> simp [WalletReply.rinkeby, getProviderOrSigner_eq]

/-- C10 (as stated) fails: on a fully successful run `checkIfAddressInWhitelist` passes
`needSigner = true`, yet its trace holds no mutating contract call. -/
theorem checkIfAddressInWhitelist_requests_signer_for_read :
    ¬ (true ∈ requested (trace (checkIfAddressInWhitelist ⟨WalletReply.rinkeby, .resolved true⟩)
          World.fresh) →
        ∃ c ∈ calls (trace (checkIfAddressInWhitelist ⟨WalletReply.rinkeby, .resolved true⟩)
          World.fresh), c.2.mutates = true) := by
  decide

/-- Instance of C10 (amended): on the freshly initialised page, a registration whose wallet
is on network 4 issues `addToWhitelist` through the signer, and `getProviderOrSigner(true)`
returns the signer. -/
theorem signer_requested_by_registration_and_membership_witness :
    (calls (trace (addAddressToWhitelist
        ⟨WalletReply.rinkeby, .resolved (), .resolved (), ⟨WalletReply.rinkeby, .resolved 1⟩⟩)
        World.fresh)).head? = some (Handle.signer, ContractMethod.addToWhitelist) ∧
    (getProviderOrSigner true WalletReply.rinkeby World.fresh).1 = .resolved Handle.signer :=
  have h := signer_requested_by_registration_and_membership World.fresh
  ⟨(h.2.2.1 ⟨WalletReply.rinkeby, .resolved (), .resolved (),
      ⟨WalletReply.rinkeby, .resolved 1⟩⟩).2.2 (by decide) rfl rfl,
    (h.2.2.2.2 true rinkebyModal rfl).1⟩

end Whitelist
